import Mathlib

/-!
Shallow embedding of the volatility-smirk trading pipeline:
`agent_interfaces.py` (data model), `scripts/volatility_analysis/smirk_analyzer.py`
(`SmirkAnalyzer.analyze_smirk`), `scripts/strategy/strategy.py`
(`TradingStrategy.generate_signals_from_smirk`), `bot/risk/engine.py`
(`kelly_position_size`, `compute_risk_budget`) and the batch loops of
`scripts/manager/agent_manager.py` (`perform_volatility_analysis`,
`generate_trading_signals`).

Python floats are modelled as rationals; `None` as `Option.none`;
`datetime.now()` as an explicit ambient clock argument `now : ℤ` (the Python
function reads the wall clock, which is not one of its inputs).  Logging
side effects (`print`) are not part of the value model; note that the
f-string on line 90 of `smirk_analyzer.py` carries a malformed format
specifier and in fact raises `ValueError` on every call, which the value
model deliberately elides (the defect is recorded where relevant).
-/

/-- Model of `OptionsContractData` (agent_interfaces.py). -/
structure OptionsContractData where
  strike_price : ℚ
  contract_type : String
  implied_volatility : Option ℚ := none
  volume : Option ℤ := none
  open_interest : Option ℤ := none
  delta : Option ℚ := none
  gamma : Option ℚ := none
  theta : Option ℚ := none
  vega : Option ℚ := none
  last_traded_price : Option ℚ := none
  deriving DecidableEq

/-- Model of `OptionsChainData` (agent_interfaces.py); `expiry_date` is a timestamp. -/
structure OptionsChainData where
  underlying_symbol : String
  spot_price : ℚ
  expiry_date : ℤ
  contracts : List OptionsContractData
  deriving DecidableEq

/-- The `details` dict built by `SmirkAnalyzer.analyze_smirk` (lines 101-108).
`spot_price_at_analysis` is an `Option` so that an absent key or a `None`
value can be represented on the consumer side (agent_manager.py line 217). -/
structure SmirkDetails where
  message : String
  spot_price_at_analysis : Option ℚ
  avg_otm_call_iv : Option ℚ
  avg_otm_put_iv : Option ℚ
  num_otm_calls : ℕ
  num_otm_puts : ℕ
  deriving DecidableEq

/-- Model of `VolatilitySmirkResult` (agent_interfaces.py). -/
structure VolatilitySmirkResult where
  date : ℤ
  underlying_symbol : String
  expiry_date : ℤ
  skewness_metric : Option ℚ
  sentiment_label : String
  confidence : ℚ
  details : SmirkDetails
  deriving DecidableEq

/-- Model of `TradingSignal` (agent_interfaces.py). -/
structure TradingSignal where
  date : ℤ
  price : ℚ
  signal : ℤ
  confidence : ℚ
  limit_price : Option ℚ := none
  source : String := "default"
  deriving DecidableEq

/-- smirk_analyzer.py line 31: `atm_threshold_percent = 0.02`. -/
def atm_threshold_percent : ℚ := 0.02

/-- The loop of smirk_analyzer.py lines 35-45: walk the contracts, skip those
whose implied volatility is `None` or `≤ 0`, and route the remaining IVs into
the OTM-call list (type `"call"`, strike `>` spot·(1+threshold)) or, failing
that, the OTM-put list (type `"put"`, strike `<` spot·(1−threshold)).
The recursion conses at the head, which yields the same two lists, in the same
order, as the Python loop's appends. -/
def collectOtmIVs (spot : ℚ) : List OptionsContractData → List ℚ × List ℚ
  | [] => ([], [])
  | c :: rest =>
    let acc := collectOtmIVs spot rest
    match c.implied_volatility with
    | none => acc
    | some iv =>
      if iv ≤ 0 then acc
      else if c.contract_type = "call" ∧ spot * (1 + atm_threshold_percent) < c.strike_price then
        (iv :: acc.1, acc.2)
      else if c.contract_type = "put" ∧ c.strike_price < spot * (1 - atm_threshold_percent) then
        (acc.1, iv :: acc.2)
      else acc

/-- `np.mean` of a nonempty list of rationals: sum divided by length. -/
def listMean (xs : List ℚ) : ℚ := xs.sum / (xs.length : ℚ)

/-- smirk_analyzer.py lines 47-48: `np.mean(...) if ... else np.nan` (the list
is truthy exactly when nonempty), with `NaN` modelled as `none`. -/
def avgOfBucket : List ℚ → Option ℚ
  | [] => none
  | x :: rest => some (listMean (x :: rest))

/-- smirk_analyzer.py lines 50-56: the skew metric from the two bucket
averages — difference when both are present, `0.1` for calls-only, `-0.1`
for puts-only, `NaN` (here `none`) when both buckets are empty. -/
def skewMetric : Option ℚ → Option ℚ → Option ℚ
  | some c, some p => some (c - p)
  | some _, none => some 0.1
  | none, some _ => some (-0.1)
  | none, none => none

/-- The `smirk_interpretation_thresholds` values extracted from a truthy
config dict, each key defaulted as in smirk_analyzer.py lines 66-68. -/
structure SmirkInterpretationThresholds where
  bullish_skew_diff : ℚ := 0.02
  bearish_skew_diff : ℚ := -0.02
  min_confidence : ℚ := 0.6
  deriving DecidableEq

/-- smirk_analyzer.py lines 70-84: classification when a config was provided.
Returns the sentiment label together with the (unrounded) calculated
confidence. -/
def classifyWithConfig (skew : Option ℚ) (t : SmirkInterpretationThresholds) : String × ℚ :=
  match skew with
  | some s =>
    if t.bullish_skew_diff < s then
      ("bullish", min 0.95 (t.min_confidence + (s - t.bullish_skew_diff) * 2))
    else if s < t.bearish_skew_diff then
      ("bearish", min 0.95 (t.min_confidence + |s - t.bearish_skew_diff| * 2))
    else
      ("neutral", t.min_confidence - 0.1)
  | none => ("neutral", 0.4)

/-- smirk_analyzer.py lines 85-88: classification when no (truthy) config was
provided; the base `("neutral", 0.5)` of lines 60-61 survives unless the skew
is defined and beyond ±0.02. -/
def classifyNoConfig (skew : Option ℚ) : String × ℚ :=
  match skew with
  | some s =>
    if 0.02 < s then ("bullish", 0.65)
    else if s < -0.02 then ("bearish", 0.65)
    else ("neutral", 0.5)
  | none => ("neutral", 0.5)

/-- Dispatch on whether a truthy config dict was passed (`if config:` on
smirk_analyzer.py line 64). -/
def smirkClassification (cfg : Option SmirkInterpretationThresholds) (skew : Option ℚ) : String × ℚ :=
  match cfg with
  | some t => classifyWithConfig skew t
  | none => classifyNoConfig skew

/-- Floor of a rational: Euclidean division of numerator by (positive)
denominator. -/
def qfloor (x : ℚ) : ℤ := Int.ediv x.num (x.den : ℤ)

/-- Round a rational to the nearest integer, ties to even — the semantics of
Python's builtin `round` on an exactly-represented value. -/
def roundHalfEven (x : ℚ) : ℤ :=
  let n := qfloor x
  let frac := x - (n : ℚ)
  if frac < 1/2 then n
  else if 1/2 < frac then n + 1
  else if n % 2 = 0 then n else n + 1

/-- Python's `round(x, 2)`. -/
def round2 (x : ℚ) : ℚ := ((roundHalfEven (x * 100) : ℤ) : ℚ) / 100

/-- Value model of `SmirkAnalyzer.analyze_smirk` (smirk_analyzer.py lines
14-109): the `VolatilitySmirkResult` built at lines 94-109.  `now` is the
ambient clock read by `datetime.now()` at line 95.  The `print` statements are
not modelled (see the file header: the one at line 90 in fact raises
`ValueError` because of a malformed format specifier). -/
def analyze_smirk (data : OptionsChainData) (cfg : Option SmirkInterpretationThresholds)
    (now : ℤ) : VolatilitySmirkResult :=
  let buckets := collectOtmIVs data.spot_price data.contracts
  let avgC := avgOfBucket buckets.1
  let avgP := avgOfBucket buckets.2
  let skew := skewMetric avgC avgP
  let lc := smirkClassification cfg skew
  { date := now
    underlying_symbol := data.underlying_symbol
    expiry_date := data.expiry_date
    skewness_metric := skew
    sentiment_label := lc.1
    confidence := round2 lc.2
    details :=
      { message := "Smirk analysis complete."
        spot_price_at_analysis := some data.spot_price
        avg_otm_call_iv := avgC
        avg_otm_put_iv := avgP
        num_otm_calls := buckets.1.length
        num_otm_puts := buckets.2.length } }

/-- The `strategy.smirk_bullish_confidence_min` / `smirk_bearish_confidence_min`
values extracted from a config dict (strategy.py lines 113-114), keys
defaulted to 0.7. -/
structure StrategyConfig where
  smirk_bullish_confidence_min : ℚ := 0.7
  smirk_bearish_confidence_min : ℚ := 0.7
  deriving DecidableEq

/-- strategy.py line 113: the bullish confidence threshold, 0.7 when no config. -/
def bullish_confidence_threshold : Option StrategyConfig → ℚ
  | some c => c.smirk_bullish_confidence_min
  | none => 0.7

/-- strategy.py line 114: the bearish confidence threshold, 0.7 when no config. -/
def bearish_confidence_threshold : Option StrategyConfig → ℚ
  | some c => c.smirk_bearish_confidence_min
  | none => 0.7

/-- Model of `TradingStrategy.generate_signals_from_smirk` (strategy.py lines
96-129).  `now` is the clock read by `datetime.now()` at line 123. -/
def generate_signals_from_smirk (spot_price : ℚ) (smirk_result : VolatilitySmirkResult)
    (cfg : Option StrategyConfig) (now : ℤ) : Option TradingSignal :=
  let signal_action : ℤ :=
    if smirk_result.sentiment_label = "bullish" ∧
        bullish_confidence_threshold cfg ≤ smirk_result.confidence then 1
    else if smirk_result.sentiment_label = "bearish" ∧
        bearish_confidence_threshold cfg ≤ smirk_result.confidence then -1
    else 0
  if signal_action ≠ 0 then
    some { date := now
           price := spot_price
           signal := signal_action
           confidence := smirk_result.confidence
           limit_price := none
           source := "volatility_smirk_strategy" }
  else none

/-- Model of `RiskConfig` (bot/risk/engine.py lines 10-14). -/
structure RiskConfig where
  capital : ℚ
  confidence_level : ℚ := 0.95
  max_drawdown : ℚ := 0.2
  deriving DecidableEq

/-- Model of `kelly_position_size` (bot/risk/engine.py lines 17-23). -/
def kelly_position_size (edge win_prob capital : ℚ) : ℚ :=
  if win_prob = 0 ∨ win_prob = 1 then 0
  else
    let b := edge / (1 - win_prob)
    let fraction := if b ≠ 0 then (win_prob * (b + 1) - 1) / b else 0
    max 0 (min fraction 1) * capital

/-- The dict returned by `compute_risk_budget`. -/
structure RiskBudget where
  allocation : ℚ
  max_loss : ℚ
  deriving DecidableEq

/-- Model of `compute_risk_budget` (bot/risk/engine.py lines 36-44). -/
def compute_risk_budget (signal_strength : ℚ) (config : RiskConfig) : RiskBudget :=
  let edge := max signal_strength 0
  let win_prob := 1/2 + edge / 2
  let allocation := kelly_position_size edge win_prob config.capital
  { allocation := allocation
    max_loss := allocation * config.max_drawdown }

/-- Batch loop of `AgentManager.perform_volatility_analysis` (agent_manager.py
lines 182-199): drain the options-data queue, run the per-item analysis inside
`try/except`, collect the results of the successful items in order; an
exception is logged and the loop moves to the next item.  The per-item body
(which in Python may raise for reasons outside the pure value model) is the
parameter `analyzeItem`. -/
def perform_volatility_analysis
    (analyzeItem : OptionsChainData → Except String VolatilitySmirkResult) :
    List OptionsChainData → List VolatilitySmirkResult
  | [] => []
  | x :: xs =>
    match analyzeItem x with
    | .ok r => r :: perform_volatility_analysis analyzeItem xs
    | .error _ => perform_volatility_analysis analyzeItem xs

/-- Batch loop of `AgentManager.generate_trading_signals` (agent_manager.py
lines 210-231): drain the volatility-analysis queue; per item (inside
`try/except`) the step yields `.ok (some s)` when a signal is emitted,
`.ok none` when the item is skipped or yields no signal, and `.error` when the
body raises; errors are logged and the loop continues. -/
def generate_trading_signals
    (signalItem : VolatilitySmirkResult → Except String (Option TradingSignal)) :
    List VolatilitySmirkResult → List TradingSignal
  | [] => []
  | r :: rs =>
    match signalItem r with
    | .ok (some s) => s :: generate_trading_signals signalItem rs
    | .ok none => generate_trading_signals signalItem rs
    | .error _ => generate_trading_signals signalItem rs

/-- The per-item body of `AgentManager.generate_trading_signals`
(agent_manager.py lines 216-226): read `spot_price_at_analysis` from the
result's details; if it is absent or falsy (`None` or `0`) skip the item
(`continue`), otherwise call the strategy agent. -/
def generate_trading_signals_step (cfg : Option StrategyConfig) (now : ℤ)
    (smirk_result : VolatilitySmirkResult) : Except String (Option TradingSignal) :=
  match smirk_result.details.spot_price_at_analysis with
  | none => .ok none
  | some spot_price =>
    if spot_price = 0 then .ok none
    else .ok (generate_signals_from_smirk spot_price smirk_result cfg now)

/-- `AgentManager.generate_trading_signals` with its actual per-item body. -/
def agent_generate_trading_signals (cfg : Option StrategyConfig) (now : ℤ)
    (queue : List VolatilitySmirkResult) : List TradingSignal :=
  generate_trading_signals (generate_trading_signals_step cfg now) queue

/-!
Spec-side bucket definitions for the refinement claim about
`analyze_smirk`: the OTM-call bucket holds the implied volatilities of the
contracts that have a present, positive IV, kind `"call"`, and strike above
spot·(1 + 0.02); the OTM-put bucket those with kind `"put"` and strike below
spot·(1 − 0.02).  These are written from the specification's wording and are
compared with the analyzer's own loop.
-/

/-- OTM-call bucket as the specification words it. -/
def specOtmCallIVs (spot : ℚ) (cs : List OptionsContractData) : List ℚ :=
  cs.filterMap fun c =>
    match c.implied_volatility with
    | some iv =>
      if 0 < iv ∧ c.contract_type = "call" ∧ spot * (1 + 0.02) < c.strike_price
      then some iv else none
    | none => none

/-- OTM-put bucket as the specification words it. -/
def specOtmPutIVs (spot : ℚ) (cs : List OptionsContractData) : List ℚ :=
  cs.filterMap fun c =>
    match c.implied_volatility with
    | some iv =>
      if 0 < iv ∧ c.contract_type = "put" ∧ c.strike_price < spot * (1 - 0.02)
      then some iv else none
    | none => none

/-!
Concrete inputs used by the end-to-end scenario and by witnesses.
`scenarioContracts` is the snapshot of the specification's end-to-end
scenario (also the mock data of smirk_analyzer.py lines 116-128): spot 60500,
calls at 60000 and 61000 with IVs 0.70 / 0.68, puts at 59000 and 58000 with
IVs 0.72 / 0.75.
-/

/-- The four contracts of the end-to-end scenario. -/
def scenarioContracts : List OptionsContractData :=
  [ { strike_price := 60000, contract_type := "call", implied_volatility := some 0.7,
      volume := some 100, open_interest := some 500, delta := some 0.5, gamma := some 0.02,
      theta := some (-0.05), vega := some 0.2, last_traded_price := some 3000 },
    { strike_price := 61000, contract_type := "call", implied_volatility := some 0.68,
      volume := some 120, open_interest := some 550, delta := some 0.4, gamma := some 0.02,
      theta := some (-0.05), vega := some 0.2, last_traded_price := some 2500 },
    { strike_price := 59000, contract_type := "put", implied_volatility := some 0.72,
      volume := some 90, open_interest := some 450, delta := some (-0.5), gamma := some 0.02,
      theta := some (-0.05), vega := some 0.2, last_traded_price := some 2800 },
    { strike_price := 58000, contract_type := "put", implied_volatility := some 0.75,
      volume := some 110, open_interest := some 480, delta := some (-0.6), gamma := some 0.02,
      theta := some (-0.05), vega := some 0.2, last_traded_price := some 3200 } ]

/-- The end-to-end scenario snapshot: spot 60500. -/
def scenarioChain : OptionsChainData :=
  { underlying_symbol := "BTC", spot_price := 60500, expiry_date := 7,
    contracts := scenarioContracts }

/-- The end-to-end scenario thresholds: bullish 0.05, bearish −0.05,
minimum confidence 0.65. -/
def scenarioThresholds : SmirkInterpretationThresholds :=
  { bullish_skew_diff := 0.05, bearish_skew_diff := -0.05, min_confidence := 0.65 }

/-- A snapshot with zero contracts. -/
def emptyChain : OptionsChainData :=
  { underlying_symbol := "BTC", spot_price := 60500, expiry_date := 7, contracts := [] }

/-- A snapshot whose (unrounded) calculated confidence under default
thresholds is 0.698: spot 100, one OTM call (strike 103, IV 0.769) and one
OTM put (strike 97, IV 0.7), so the skew is 0.069 and the bullish confidence
is 0.6 + (0.069 − 0.02)·2 = 0.698. -/
def borderChain : OptionsChainData :=
  { underlying_symbol := "BTC", spot_price := 100, expiry_date := 7,
    contracts :=
      [ { strike_price := 103, contract_type := "call", implied_volatility := some 0.769 },
        { strike_price := 97, contract_type := "put", implied_volatility := some 0.7 } ] }

/-- The default thresholds record (all keys absent). -/
def defaultThresholds : SmirkInterpretationThresholds := {}

/-- A smirk result labelled bullish with confidence exactly 0.7. -/
def bullishResult : VolatilitySmirkResult :=
  { date := 0, underlying_symbol := "BTC", expiry_date := 7, skewness_metric := some 0.1,
    sentiment_label := "bullish", confidence := 0.7,
    details := { message := "Smirk analysis complete.", spot_price_at_analysis := some 70,
                 avg_otm_call_iv := some 0.7, avg_otm_put_iv := none,
                 num_otm_calls := 1, num_otm_puts := 0 } }

/-- A smirk result labelled neutral with confidence 0.55. -/
def neutralResult : VolatilitySmirkResult :=
  { date := 0, underlying_symbol := "BTC", expiry_date := 7, skewness_metric := some (-0.045),
    sentiment_label := "neutral", confidence := 0.55,
    details := { message := "Smirk analysis complete.", spot_price_at_analysis := some 60500,
                 avg_otm_call_iv := some 0.69, avg_otm_put_iv := some 0.735,
                 num_otm_calls := 2, num_otm_puts := 2 } }

/-- A smirk result whose details lack a spot price, marked by symbol `"BAD"`. -/
def badResult : VolatilitySmirkResult :=
  { date := 0, underlying_symbol := "BAD", expiry_date := 0, skewness_metric := none,
    sentiment_label := "neutral", confidence := 0.4,
    details := { message := "Smirk analysis complete.", spot_price_at_analysis := none,
                 avg_otm_call_iv := none, avg_otm_put_iv := none,
                 num_otm_calls := 0, num_otm_puts := 0 } }

/-- An options chain marked by symbol `"BAD"`, used to probe per-item failure. -/
def badChain : OptionsChainData :=
  { underlying_symbol := "BAD", spot_price := 1, expiry_date := 0, contracts := [] }

/-- A per-item analysis body that raises exactly on `"BAD"` snapshots. -/
def probeAnalyze (d : OptionsChainData) : Except String VolatilitySmirkResult :=
  if d.underlying_symbol = "BAD" then Except.error "boom"
  else Except.ok (analyze_smirk d none 0)

/-- A per-item signal body that raises exactly on `"BAD"` results. -/
def probeSignal (r : VolatilitySmirkResult) : Except String (Option TradingSignal) :=
  if r.underlying_symbol = "BAD" then Except.error "boom"
  else generate_trading_signals_step none 0 r

/-!
Helper lemmas shared by the claim theorems.
-/

/-- The analyzer's if/elif routing produces exactly the specification's two
buckets: the elif never hides a put from the put bucket, because a contract's
type cannot be both `"call"` and `"put"`. -/
theorem collectOtmIVs_eq_specBuckets (spot : ℚ) (cs : List OptionsContractData) :
    collectOtmIVs spot cs = (specOtmCallIVs spot cs, specOtmPutIVs spot cs) := by
  induction cs with
  | nil => rfl
  | cons c rest ih =>
    cases hiv : c.implied_volatility with
    | none =>
      simp [collectOtmIVs, specOtmCallIVs, specOtmPutIVs, List.filterMap_cons, hiv] at ih ⊢
      exact ih
    | some iv =>
      by_cases h0 : iv ≤ 0
      · have h0n : ¬ 0 < iv := not_lt.mpr h0
        simp [collectOtmIVs, specOtmCallIVs, specOtmPutIVs, List.filterMap_cons, hiv, h0, h0n]
        exact ih
      · have h0p : 0 < iv := lt_of_not_le h0
        by_cases hcall : c.contract_type = "call" ∧
            spot * (1 + (0.02 : ℚ)) < c.strike_price
        · have hput : ¬ (0 < iv ∧ c.contract_type = "put" ∧
              c.strike_price < spot * (1 - 0.02)) := by
            rintro ⟨-, hp, -⟩
            rw [hcall.1] at hp
            exact absurd hp (by decide)
          simp [collectOtmIVs, specOtmCallIVs, specOtmPutIVs, List.filterMap_cons, hiv, h0,
            hcall, h0p, hput, atm_threshold_percent, ih]
        · by_cases hputc : c.contract_type = "put" ∧
              c.strike_price < spot * (1 - (0.02 : ℚ))
          · have hcalln : ¬ (0 < iv ∧ c.contract_type = "call" ∧
                spot * (1 + 0.02) < c.strike_price) := by
              rintro ⟨-, hp, -⟩
              rw [hputc.1] at hp
              exact absurd hp (by decide)
            simp [collectOtmIVs, specOtmCallIVs, specOtmPutIVs, List.filterMap_cons, hiv, h0,
              hcall, hputc, h0p, hcalln, atm_threshold_percent, ih]
          · simp [collectOtmIVs, specOtmCallIVs, specOtmPutIVs, List.filterMap_cons, hiv, h0,
              hcall, hputc, h0p, atm_threshold_percent, ih]

/-- `generate_signals_from_smirk` as an explicit case split. -/
theorem generate_signals_from_smirk_eq (spot : ℚ) (r : VolatilitySmirkResult)
    (cfg : Option StrategyConfig) (now : ℤ) :
    generate_signals_from_smirk spot r cfg now =
      (if r.sentiment_label = "bullish" ∧ bullish_confidence_threshold cfg ≤ r.confidence then
        some { date := now, price := spot, signal := 1, confidence := r.confidence,
               limit_price := none, source := "volatility_smirk_strategy" }
      else if r.sentiment_label = "bearish" ∧ bearish_confidence_threshold cfg ≤ r.confidence then
        some { date := now, price := spot, signal := -1, confidence := r.confidence,
               limit_price := none, source := "volatility_smirk_strategy" }
      else none) := by
  by_cases hb : r.sentiment_label = "bullish" ∧ bullish_confidence_threshold cfg ≤ r.confidence
  · simp [generate_signals_from_smirk, hb]
  · by_cases he : r.sentiment_label = "bearish" ∧
        bearish_confidence_threshold cfg ≤ r.confidence
    · simp [generate_signals_from_smirk, hb, he]
    · simp [generate_signals_from_smirk, hb, he]

/-- A fraction clamped to [0, 1] times a nonnegative capital stays below the
capital. -/
theorem clamp_mul_le (t c : ℚ) (h : 0 ≤ c) : max 0 (min t 1) * c ≤ c := by
  have h1 : max 0 (min t 1) ≤ 1 := max_le zero_le_one (min_le_right t 1)
  simpa using mul_le_mul_of_nonneg_right h1 h

/-- Kelly sizing is bounded by a nonnegative capital: the clamped fraction
lies in [0, 1]. -/
theorem kelly_position_size_le_capital (edge win_prob capital : ℚ) (h : 0 ≤ capital) :
    kelly_position_size edge win_prob capital ≤ capital := by
  unfold kelly_position_size
  split_ifs with hw
  · exact h
  · exact clamp_mul_le _ _ h

/-!
Claim theorems.
-/

/-- C1: for every options chain snapshot, `analyze_smirk` buckets exactly the
contracts with a present, positive implied volatility into the OTM-call and
OTM-put buckets as the specification words them (threshold 0.02), reports
their sizes as `num_otm_calls` / `num_otm_puts`, and its skew metric is the
difference of bucket means when both buckets are non-empty, exactly 0.1 for
calls-only, exactly −0.1 for puts-only, and undefined (`none`, never zero)
when both buckets are empty — in which case both counts are 0.  (This is the
value-level content of the claim; the claim's "no exception raised" part is
contradicted by the logging statement at smirk_analyzer.py line 90, whose
malformed format specifier raises `ValueError` on every call.) -/
theorem c1_analyze_smirk_buckets_and_skew (data : OptionsChainData)
    (cfg : Option SmirkInterpretationThresholds) (now : ℤ) :
    (analyze_smirk data cfg now).details.num_otm_calls =
      (specOtmCallIVs data.spot_price data.contracts).length ∧
    (analyze_smirk data cfg now).details.num_otm_puts =
      (specOtmPutIVs data.spot_price data.contracts).length ∧
    (analyze_smirk data cfg now).skewness_metric =
      (match specOtmCallIVs data.spot_price data.contracts,
             specOtmPutIVs data.spot_price data.contracts with
       | [], [] => none
       | _ :: _, [] => some 0.1
       | [], _ :: _ => some (-0.1)
       | cIVs, pIVs => some (listMean cIVs - listMean pIVs)) := by
  have hb := collectOtmIVs_eq_specBuckets data.spot_price data.contracts
  refine ⟨?_, ?_, ?_⟩
  · show (collectOtmIVs data.spot_price data.contracts).1.length = _
    rw [hb]
  · show (collectOtmIVs data.spot_price data.contracts).2.length = _
    rw [hb]
  · show skewMetric (avgOfBucket (collectOtmIVs data.spot_price data.contracts).1)
        (avgOfBucket (collectOtmIVs data.spot_price data.contracts).2) = _
    rw [hb]
    cases hc : specOtmCallIVs data.spot_price data.contracts with
    | nil =>
      cases hp : specOtmPutIVs data.spot_price data.contracts with
      | nil => rfl
      | cons p ps => rfl
    | cons c0 cs =>
      cases hp : specOtmPutIVs data.spot_price data.contracts with
      | nil => rfl
      | cons p ps => rfl

/-- C2 (counterexample): on the specification's end-to-end scenario — spot
60500 with calls at 60000 / 61000 (IVs 0.70, 0.68) and puts at 59000 / 58000
(IVs 0.72, 0.75), thresholds bullish 0.05 / bearish −0.05 / min-confidence
0.65 — the sentiment label is not `neutral` as the claim states: neither call
strike exceeds 60500·1.02 = 61710, so the call bucket is empty. -/
theorem c2_scenario_counterexample :
    (analyze_smirk scenarioChain (some scenarioThresholds) 0).sentiment_label ≠ "neutral" := by
  norm_num [analyze_smirk, collectOtmIVs, scenarioChain, scenarioContracts, scenarioThresholds,
    atm_threshold_percent, avgOfBucket, listMean, skewMetric, smirkClassification,
    classifyWithConfig, round2, roundHalfEven, qfloor, min_def, max_def, abs_eq_max_neg]
  all_goals decide

/-- C2 (amended): on that same scenario the call bucket is empty (both call
strikes are inside the 2% moneyness band) while both puts are OTM, so the
skew metric is the puts-only default −0.1, the label is `bearish` with
confidence min(0.95, 0.65 + |−0.1 − (−0.05)|·2) = 0.75, and the signal
generator (default confidence minima 0.7) emits a SELL at price 60500 with
confidence 0.75. -/
theorem c2_scenario_actual_behavior :
    (analyze_smirk scenarioChain (some scenarioThresholds) 0).skewness_metric = some (-0.1) ∧
    (analyze_smirk scenarioChain (some scenarioThresholds) 0).sentiment_label = "bearish" ∧
    (analyze_smirk scenarioChain (some scenarioThresholds) 0).confidence = 0.75 ∧
    (analyze_smirk scenarioChain (some scenarioThresholds) 0).details.num_otm_calls = 0 ∧
    (analyze_smirk scenarioChain (some scenarioThresholds) 0).details.num_otm_puts = 2 ∧
    generate_signals_from_smirk 60500
        (analyze_smirk scenarioChain (some scenarioThresholds) 0) none 0 =
      some { date := 0, price := 60500, signal := -1, confidence := 0.75,
             limit_price := none, source := "volatility_smirk_strategy" } := by
  refine ⟨?_, ?_, ?_, ?_, ?_, ?_⟩
  all_goals
    norm_num [analyze_smirk, collectOtmIVs, scenarioChain, scenarioContracts,
      scenarioThresholds, atm_threshold_percent, avgOfBucket, listMean, skewMetric,
      smirkClassification, classifyWithConfig, round2, roundHalfEven, qfloor, min_def,
      max_def, abs_eq_max_neg, generate_signals_from_smirk, bullish_confidence_threshold,
      bearish_confidence_threshold]
  all_goals decide

/-- C3: for every spot price, smirk result and configuration,
`generate_signals_from_smirk` emits a BUY (signal = 1) exactly when the label
is `bullish` and the confidence reaches the bullish minimum (default 0.7), a
SELL (signal = −1) exactly when the label is `bearish` and the confidence
reaches the bearish minimum, and otherwise returns `none` (no HOLD record);
every emitted signal carries the given spot price and the result's confidence
unchanged. -/
theorem c3_signal_generation_iff (spot : ℚ) (r : VolatilitySmirkResult)
    (cfg : Option StrategyConfig) (now : ℤ) :
    (∀ s, generate_signals_from_smirk spot r cfg now = some s →
        s.price = spot ∧ s.confidence = r.confidence) ∧
    ((∃ s, generate_signals_from_smirk spot r cfg now = some s ∧ s.signal = 1) ↔
        (r.sentiment_label = "bullish" ∧ bullish_confidence_threshold cfg ≤ r.confidence)) ∧
    ((∃ s, generate_signals_from_smirk spot r cfg now = some s ∧ s.signal = -1) ↔
        (r.sentiment_label = "bearish" ∧ bearish_confidence_threshold cfg ≤ r.confidence)) ∧
    (¬(r.sentiment_label = "bullish" ∧ bullish_confidence_threshold cfg ≤ r.confidence) →
      ¬(r.sentiment_label = "bearish" ∧ bearish_confidence_threshold cfg ≤ r.confidence) →
        generate_signals_from_smirk spot r cfg now = none) := by
  by_cases hb : r.sentiment_label = "bullish" ∧ bullish_confidence_threshold cfg ≤ r.confidence
  · have hgen : generate_signals_from_smirk spot r cfg now =
        some { date := now, price := spot, signal := 1, confidence := r.confidence,
               limit_price := none, source := "volatility_smirk_strategy" } := by
      rw [generate_signals_from_smirk_eq]
      simp [hb]
    have hnb : ¬(r.sentiment_label = "bearish" ∧
        bearish_confidence_threshold cfg ≤ r.confidence) := by
      rintro ⟨h1, -⟩
      rw [hb.1] at h1
      exact absurd h1 (by decide)
    refine ⟨?_, ?_, ?_, ?_⟩
    · intro s hs
      rw [hgen] at hs
      injection hs with h
      subst h
      exact ⟨rfl, rfl⟩
    · exact ⟨fun _ => hb, fun _ => ⟨_, hgen, rfl⟩⟩
    · constructor
      · rintro ⟨s, hs, hsig⟩
        rw [hgen] at hs
        injection hs with h
        subst h
        simp at hsig
      · intro hbear
        exact absurd hbear hnb
    · intro hnb2 _
      exact absurd hb hnb2
  · by_cases he : r.sentiment_label = "bearish" ∧
        bearish_confidence_threshold cfg ≤ r.confidence
    · have hgen : generate_signals_from_smirk spot r cfg now =
          some { date := now, price := spot, signal := -1, confidence := r.confidence,
                 limit_price := none, source := "volatility_smirk_strategy" } := by
        rw [generate_signals_from_smirk_eq]
        simp [hb, he]
      refine ⟨?_, ?_, ?_, ?_⟩
      · intro s hs
        rw [hgen] at hs
        injection hs with h
        subst h
        exact ⟨rfl, rfl⟩
      · constructor
        · rintro ⟨s, hs, hsig⟩
          rw [hgen] at hs
          injection hs with h
          subst h
          simp at hsig
        · intro hbull
          exact absurd hbull hb
      · exact ⟨fun _ => he, fun _ => ⟨_, hgen, rfl⟩⟩
      · intro _ hne
        exact absurd he hne
    · have hgen : generate_signals_from_smirk spot r cfg now = none := by
        rw [generate_signals_from_smirk_eq]
        simp [hb, he]
      refine ⟨?_, ?_, ?_, ?_⟩
      · intro s hs
        rw [hgen] at hs
        exact absurd hs (by simp)
      · constructor
        · rintro ⟨s, hs, -⟩
          rw [hgen] at hs
          exact absurd hs (by simp)
        · intro hbull
          exact absurd hbull hb
      · constructor
        · rintro ⟨s, hs, -⟩
          rw [hgen] at hs
          exact absurd hs (by simp)
        · intro hbear
          exact absurd hbear he
      · intro _ _
        exact hgen

/-- C3 witness: on a neutral result the generator emits nothing. -/
theorem c3_signal_generation_iff_witness :
    generate_signals_from_smirk 60500 neutralResult none 0 = none :=
  (c3_signal_generation_iff 60500 neutralResult none 0).2.2.2
    (fun h => absurd h.1 (by decide)) (fun h => absurd h.1 (by decide))

/-- C4: whenever the skew metric of an `analyze_smirk` result is undefined
(no OTM bucket had a valid implied volatility), the classification — for every
thresholds configuration — is label `neutral` with confidence exactly 0.4,
produced as an ordinary result.  (The surrounding function additionally
raises `ValueError` from its logging statement before returning; that defect
is recorded with the claim.) -/
theorem c4_undefined_skew_neutral_low_confidence (data : OptionsChainData)
    (t : SmirkInterpretationThresholds) (now : ℤ)
    (h : (analyze_smirk data (some t) now).skewness_metric = none) :
    (analyze_smirk data (some t) now).sentiment_label = "neutral" ∧
    (analyze_smirk data (some t) now).confidence = 0.4 := by
  have hs : skewMetric (avgOfBucket (collectOtmIVs data.spot_price data.contracts).1)
      (avgOfBucket (collectOtmIVs data.spot_price data.contracts).2) = none := h
  constructor
  · show (smirkClassification (some t)
      (skewMetric (avgOfBucket (collectOtmIVs data.spot_price data.contracts).1)
        (avgOfBucket (collectOtmIVs data.spot_price data.contracts).2))).1 = "neutral"
    rw [hs]
    rfl
  · show round2 (smirkClassification (some t)
      (skewMetric (avgOfBucket (collectOtmIVs data.spot_price data.contracts).1)
        (avgOfBucket (collectOtmIVs data.spot_price data.contracts).2))).2 = 0.4
    rw [hs]
    norm_num [smirkClassification, classifyWithConfig, round2, roundHalfEven, qfloor]

/-- C4 witness: the zero-contract snapshot under default thresholds. -/
theorem c4_undefined_skew_neutral_low_confidence_witness :
    (analyze_smirk emptyChain (some defaultThresholds) 0).sentiment_label = "neutral" ∧
    (analyze_smirk emptyChain (some defaultThresholds) 0).confidence = 0.4 :=
  c4_undefined_skew_neutral_low_confidence emptyChain defaultThresholds 0 rfl

/-- C5 (counterexample): with a negative capital the claim fails —
`kelly_position_size(edge 0, win probability 1/2, capital −1)` returns 0,
which is greater than the capital −1. -/
theorem c5_kelly_negative_capital_counterexample :
    -1 < kelly_position_size 0 (1/2) (-1) := by
  norm_num [kelly_position_size, min_def, max_def]

/-- C5 (amended): for every edge and win probability and every nonnegative
capital, `kelly_position_size` never exceeds the capital; hence
`compute_risk_budget`'s allocation never exceeds a nonnegative configured
capital, and — for every input — its max-loss equals the allocation times the
configured max-drawdown fraction. -/
theorem c5_kelly_capped_by_nonneg_capital :
    (∀ edge win_prob capital, 0 ≤ capital →
        kelly_position_size edge win_prob capital ≤ capital) ∧
    (∀ signal_strength (config : RiskConfig), 0 ≤ config.capital →
        (compute_risk_budget signal_strength config).allocation ≤ config.capital) ∧
    (∀ signal_strength (config : RiskConfig),
        (compute_risk_budget signal_strength config).max_loss =
          (compute_risk_budget signal_strength config).allocation * config.max_drawdown) := by
  refine ⟨kelly_position_size_le_capital, ?_, ?_⟩
  · intro s cfg h
    exact kelly_position_size_le_capital _ _ _ h
  · intro s cfg
    rfl

/-- C5 witness: the bounds at capital 0. -/
theorem c5_kelly_capped_by_nonneg_capital_witness :
    kelly_position_size 2 (3/4) 0 ≤ 0 ∧
    (compute_risk_budget (1/2) { capital := 0 }).allocation ≤
      ({ capital := 0 } : RiskConfig).capital ∧
    (compute_risk_budget (1/2) { capital := 0 }).max_loss =
      (compute_risk_budget (1/2) { capital := 0 }).allocation *
        ({ capital := 0 } : RiskConfig).max_drawdown :=
  ⟨c5_kelly_capped_by_nonneg_capital.1 2 (3/4) 0 (le_refl 0),
   c5_kelly_capped_by_nonneg_capital.2.1 (1/2) { capital := 0 } (le_refl 0),
   c5_kelly_capped_by_nonneg_capital.2.2 (1/2) { capital := 0 }⟩

/-- C6: in both batch stages, an item whose per-item body raises is absorbed
at that item's boundary: the batch output over any queue containing the
failing item equals the output over the queue with that item removed, so
every sibling item is still processed and the batch never aborts. -/
theorem c6_batch_isolation :
    (∀ (f : OptionsChainData → Except String VolatilitySmirkResult)
        (xs ys : List OptionsChainData) (bad : OptionsChainData) (e : String),
        f bad = Except.error e →
        perform_volatility_analysis f (xs ++ bad :: ys) =
          perform_volatility_analysis f (xs ++ ys)) ∧
    (∀ (g : VolatilitySmirkResult → Except String (Option TradingSignal))
        (xs ys : List VolatilitySmirkResult) (bad : VolatilitySmirkResult) (e : String),
        g bad = Except.error e →
        generate_trading_signals g (xs ++ bad :: ys) =
          generate_trading_signals g (xs ++ ys)) := by
  constructor
  · intro f xs ys bad e h
    induction xs with
    | nil => simp [perform_volatility_analysis, h]
    | cons x xs ih =>
      cases hfx : f x with
      | ok r => simp [perform_volatility_analysis, hfx, ih]
      | error e2 => simp [perform_volatility_analysis, hfx, ih]
  · intro g xs ys bad e h
    induction xs with
    | nil => simp [generate_trading_signals, h]
    | cons x xs ih =>
      cases hgx : g x with
      | ok o =>
        cases o with
        | none => simp [generate_trading_signals, hgx, ih]
        | some s => simp [generate_trading_signals, hgx, ih]
      | error e2 => simp [generate_trading_signals, hgx, ih]

/-- C6 witness: a failing middle item is elided in both stages. -/
theorem c6_batch_isolation_witness :
    perform_volatility_analysis probeAnalyze ([emptyChain] ++ badChain :: [emptyChain]) =
      perform_volatility_analysis probeAnalyze ([emptyChain] ++ [emptyChain]) ∧
    generate_trading_signals probeSignal ([bullishResult] ++ badResult :: [bullishResult]) =
      generate_trading_signals probeSignal ([bullishResult] ++ [bullishResult]) :=
  ⟨c6_batch_isolation.1 probeAnalyze [emptyChain] [emptyChain] badChain "boom" rfl,
   c6_batch_isolation.2 probeSignal [bullishResult] [bullishResult] badResult "boom" rfl⟩

/-- C7 (counterexample): two calls of `analyze_smirk` on the same inputs but
at different clock readings — the Python function stamps the result with
`datetime.now()` — produce records that are not equal, refuting equality of
the whole returned record. -/
theorem c7_repeated_call_counterexample :
    analyze_smirk emptyChain none 0 ≠ analyze_smirk emptyChain none 1 := by
  intro h
  have hd : (analyze_smirk emptyChain none 0).date =
      (analyze_smirk emptyChain none 1).date := by rw [h]
  exact absurd hd (by decide)

/-- C7 (amended): `analyze_smirk` depends only on its inputs and the ambient
clock reading; two calls on identical inputs agree on the sentiment label, the
confidence, the skew metric — indeed on every field except `date`, so the
whole records coincide whenever the clock readings do. -/
theorem c7_deterministic_up_to_timestamp (data : OptionsChainData)
    (cfg : Option SmirkInterpretationThresholds) (t1 t2 : ℤ) :
    (analyze_smirk data cfg t1).sentiment_label =
      (analyze_smirk data cfg t2).sentiment_label ∧
    (analyze_smirk data cfg t1).confidence = (analyze_smirk data cfg t2).confidence ∧
    (analyze_smirk data cfg t1).skewness_metric =
      (analyze_smirk data cfg t2).skewness_metric ∧
    analyze_smirk data cfg t1 = { analyze_smirk data cfg t2 with date := t1 } :=
  ⟨rfl, rfl, rfl, rfl⟩

/-- C8: `kelly_position_size` short-circuits to 0 for win probability 0 or 1
(before the division by 1 − winProbability is reached), and a zero edge — in
particular edge 0 with win probability 0.5 — makes `b = 0`, in which case the
guarded division is skipped, the fraction is 0 and the result is 0 for every
capital. -/
theorem c8_kelly_degenerate (edge win_prob capital : ℚ) :
    ((win_prob = 0 ∨ win_prob = 1) → kelly_position_size edge win_prob capital = 0) ∧
    kelly_position_size 0 win_prob capital = 0 := by
  constructor
  · intro h
    unfold kelly_position_size
    rw [if_pos h]
  · unfold kelly_position_size
    by_cases h : win_prob = 0 ∨ win_prob = 1
    · rw [if_pos h]
    · rw [if_neg h]
      norm_num [min_def, max_def]

/-- C8 witness: win probability 1 and the edge-0 instance at capital 7. -/
theorem c8_kelly_degenerate_witness :
    kelly_position_size 5 1 100 = 0 ∧ kelly_position_size 0 (1/2) 7 = 0 :=
  ⟨(c8_kelly_degenerate 5 1 100).1 (Or.inr rfl), (c8_kelly_degenerate 0 (1/2) 7).2⟩

/-- C9: the confidence field of every `analyze_smirk` result is the internally
calculated confidence rounded to two decimals, and the downstream gate
compares this rounded value: on `borderChain` (default thresholds) the
internal confidence is 0.698 — itself below the 0.7 signal minimum — but it is
reported as 0.70 and a BUY signal is emitted. -/
theorem c9_confidence_rounding_and_gating :
    (∀ (data : OptionsChainData) (cfg : Option SmirkInterpretationThresholds) (now : ℤ),
        (analyze_smirk data cfg now).confidence =
          round2 (smirkClassification cfg
            (skewMetric (avgOfBucket (collectOtmIVs data.spot_price data.contracts).1)
              (avgOfBucket (collectOtmIVs data.spot_price data.contracts).2))).2) ∧
    (smirkClassification (some defaultThresholds)
        ((analyze_smirk borderChain (some defaultThresholds) 0).skewness_metric)).2 = 0.698 ∧
    ((0.698 : ℚ) < 0.7) ∧
    (analyze_smirk borderChain (some defaultThresholds) 0).confidence = 0.7 ∧
    generate_signals_from_smirk 100 (analyze_smirk borderChain (some defaultThresholds) 0)
        none 9 =
      some { date := 9, price := 100, signal := 1, confidence := 0.7,
             limit_price := none, source := "volatility_smirk_strategy" } := by
  refine ⟨fun data cfg now => rfl, ?_, ?_, ?_, ?_⟩
  all_goals
    norm_num [analyze_smirk, collectOtmIVs, borderChain, defaultThresholds,
      atm_threshold_percent, avgOfBucket, listMean, skewMetric, smirkClassification,
      classifyWithConfig, round2, roundHalfEven, qfloor, min_def, max_def, abs_eq_max_neg,
      generate_signals_from_smirk, bullish_confidence_threshold,
      bearish_confidence_threshold]

/-- C10: a queued smirk result whose details carry no spot price (key absent
or value falsy — `None` or 0) is silently skipped by the signal-generation
stage: no signal is produced for it, no error is raised, and the remaining
queue is processed exactly as if the item were absent. -/
theorem c10_missing_spot_price_skipped (cfg : Option StrategyConfig) (now : ℤ)
    (r : VolatilitySmirkResult) (queue : List VolatilitySmirkResult)
    (h : r.details.spot_price_at_analysis = none ∨
         r.details.spot_price_at_analysis = some 0) :
    agent_generate_trading_signals cfg now (r :: queue) =
      agent_generate_trading_signals cfg now queue := by
  rcases h with h | h <;>
    simp [agent_generate_trading_signals, generate_trading_signals,
      generate_trading_signals_step, h]

/-- C10 witness: a result with no spot price in its details is skipped. -/
theorem c10_missing_spot_price_skipped_witness :
    agent_generate_trading_signals none 0 [badResult] =
      agent_generate_trading_signals none 0 [] :=
  c10_missing_spot_price_skipped none 0 badResult [] (Or.inl rfl)
